import Mathlib

/-!
# Greeting submission handler of `energy_trading_frontend/src/index.js`

The source registers one `async` listener for the `submit` event of the page's form:

```
async (e) => {
  e.preventDefault();
  const button = e.target.querySelector("button");
  const name = document.getElementById("name").value.toString();
  button.setAttribute("disabled", true);
  const greeting = await energy_trading_backend.greet(name);
  button.removeAttribute("disabled");
  document.getElementById("greeting").innerText = greeting;
  return false;
}
```

The listener is embedded as two state transformers: `handlerSync` is the part that runs when the
event is dispatched (everything up to the `await`), `handlerResume` is the continuation the event
loop runs when the awaited `greet` call completes.  The page, the calls in flight and the trace of
effects are explicit state.  The event loop is the step function `step`.
-/

namespace EnergyTrading

/-! ## Data model -/

/-- The button of the form.  Field `disabled` is the value of its `disabled` attribute, `none`
when the attribute is absent. -/
structure Button where
  disabled : Option String
deriving DecidableEq, Repr

/-- The three page nodes the listener touches.  A field is `none` when the lookup of the node
yields nothing usable (`querySelector` / `getElementById` return `null`, or the `name` node has
no `value`), in which case the member access on it throws.
* `button`: result of `e.target.querySelector("button")`;
* `name`: `document.getElementById("name").value`;
* `greeting`: `document.getElementById("greeting").innerText`. -/
structure Page where
  button : Option Button
  name : Option String
  greeting : Option String
deriving DecidableEq, Repr

/-- The submit event handed to the listener. -/
structure Event where
  defaultPrevented : Bool
deriving DecidableEq, Repr

/-- Observable effects of the listener, one constructor per statement that reads or changes
something outside the listener; the lookup of a node is part of the effect that uses the node. -/
inductive Effect where
  /-- Statement `e.preventDefault()`. -/
  | preventDefault
  /-- Read of `document.getElementById("name").value`. -/
  | readName (s : String)
  /-- Statement `button.setAttribute("disabled", true)`. -/
  | disable
  /-- Call `energy_trading_backend.greet(name)`. -/
  | greet (s : String)
  /-- Statement `button.removeAttribute("disabled")`. -/
  | enable
  /-- Assignment `document.getElementById("greeting").innerText = greeting`. -/
  | write (g : String)
deriving DecidableEq, Repr

/-- State of the page and of its environment: the page nodes, the arguments of the `greet` calls
issued and not yet completed (oldest first), and the trace of all effects so far. -/
structure State where
  page : Page
  inflight : List String
  trace : List Effect
deriving DecidableEq, Repr

/-- How an awaited `greet` call completes. -/
inductive Completion where
  | resolved (g : String)
  | rejected
deriving DecidableEq, Repr

/-- Where the listener stands when its synchronous part ends: it threw before reaching the call,
or it is suspended at the `await` with the call (argument `name`) in flight. -/
inductive Suspension where
  | threw (e : Event) (st : State)
  | awaiting (e : Event) (st : State) (name : String)
deriving DecidableEq, Repr

/-- How the listener ends: it returned the value `v` (the source returns `false`), or it threw. -/
inductive Settled where
  | returned (v : Bool) (st : State)
  | threw (st : State)
deriving DecidableEq, Repr

/-- Event carried by a suspension. -/
def Suspension.event : Suspension → Event
  | .threw e _ => e
  | .awaiting e _ _ => e

/-- State carried by a suspension. -/
def Suspension.state : Suspension → State
  | .threw _ st => st
  | .awaiting _ st _ => st

/-- State carried by a settled run. -/
def Settled.state : Settled → State
  | .returned _ st => st
  | .threw st => st

/-- The trigger control exists and has the `disabled` attribute. -/
def isDisabled (p : Page) : Bool :=
  match p.button with
  | some b => b.disabled.isSome
  | none => false

/-- The trigger control exists and has no `disabled` attribute. -/
def isEnabled (p : Page) : Bool :=
  match p.button with
  | some b => b.disabled.isNone
  | none => false

/-! ## The listener -/

/-- Synchronous part of the listener: source lines 4 to 12, up to the `await`. -/
def handlerSync (e : Event) (st : State) : Suspension :=
  -- e.preventDefault();
  let e := { e with defaultPrevented := true }
  let st := { st with trace := st.trace ++ [Effect.preventDefault] }
  -- const button = e.target.querySelector("button");
  let button := st.page.button
  -- const name = document.getElementById("name").value.toString();
  match st.page.name with
  | none => .threw e st
  | some name =>
    let st := { st with trace := st.trace ++ [Effect.readName name] }
    -- button.setAttribute("disabled", true);
    match button with
    | none => .threw e st
    | some b =>
      let st := { st with
        page := { st.page with button := some { b with disabled := some "true" } }
        trace := st.trace ++ [Effect.disable] }
      -- energy_trading_backend.greet(name)
      let st := { st with
        inflight := st.inflight ++ [name]
        trace := st.trace ++ [Effect.greet name] }
      .awaiting e st name

/-- Continuation of the listener after the `await`: source lines 12 to 18.  A rejected call makes
the `await` throw; a resolved one binds `greeting` and runs the remaining statements.  The
constant `button` of the source is the node found by the synchronous part, which is the button of
the page; a continuation exists only when that node was found. -/
def handlerResume (st : State) : Completion → Settled
  | .rejected => .threw st
  | .resolved greeting =>
    -- button.removeAttribute("disabled");
    let st := { st with
      page := { st.page with
        button := st.page.button.map (fun (b : Button) => { b with disabled := none }) }
      trace := st.trace ++ [Effect.enable] }
    -- document.getElementById("greeting").innerText = greeting;
    match st.page.greeting with
    | none => .threw st
    | some _ =>
      let st := { st with
        page := { st.page with greeting := some greeting }
        trace := st.trace ++ [Effect.write greeting] }
      -- return false;
      .returned false st

/-- One whole run of the listener with nothing else happening in between: the synchronous part,
then the completion `c` of the call it issued (the newest call in flight). -/
def runHandler (e : Event) (st : State) (c : Completion) : Event × Settled :=
  match handlerSync e st with
  | .threw e st => (e, .threw st)
  | .awaiting e st _ => (e, handlerResume { st with inflight := st.inflight.dropLast } c)

/-! ## The event loop -/

/-- What the environment can do: dispatch a submit event to the form, let the user edit the name
field, or complete the `i`-th call in flight. -/
inductive Action where
  | submit
  | typeName (s : String)
  | complete (i : Nat) (c : Completion)
deriving DecidableEq, Repr

/-- One turn of the event loop.  The listener does not look at the `disabled` attribute, so a
submit event is handled in every state.  The result is `none` when the action is impossible (no
name field to edit, no `i`-th call in flight). -/
def step (st : State) : Action → Option State
  | .submit => some (handlerSync { defaultPrevented := false } st).state
  | .typeName s =>
    match st.page.name with
    | none => none
    | some _ => some { st with page := { st.page with name := some s } }
  | .complete i c =>
    if i < st.inflight.length then
      some (handlerResume { st with inflight := st.inflight.eraseIdx i } c).state
    else none

/-- Turn of the event loop in which the form can only be submitted through an enabled trigger
control. -/
def guardedStep (st : State) : Action → Option State
  | .submit => if isEnabled st.page then step st .submit else none
  | a => step st a

/-- Run a sequence of actions with the step function `f`. -/
def runActions (f : State → Action → Option State) : State → List Action → Option State
  | st, [] => some st
  | st, a :: as =>
    match f st a with
    | none => none
    | some st1 => runActions f st1 as

/-- Idle state: the trigger control is enabled and no call is in flight. -/
def Idle (st : State) : Prop :=
  isEnabled st.page = true ∧ st.inflight = []

/-- Effects of the trace `t` that are calls of `greet`, as the list of their arguments. -/
def greetCalls : List Effect → List String
  | [] => []
  | .greet s :: t => s :: greetCalls t
  | _ :: t => greetCalls t

/-- Completion is a rejection. -/
def Action.isRejection : Action → Bool
  | .complete _ .rejected => true
  | _ => false

end EnergyTrading

namespace EnergyTrading

/-! ## Basic facts about the listener -/

/-- With a button and a name field on the page the synchronous part reaches the `await`; the
resulting event, state and call argument are the ones written out here. -/
theorem handlerSync_awaiting (e : Event) (st : State) (b : Button) (s : String)
    (hb : st.page.button = some b) (hn : st.page.name = some s) :
    handlerSync e st = .awaiting { e with defaultPrevented := true }
      { page := { st.page with button := some { b with disabled := some "true" } }
        inflight := st.inflight ++ [s]
        trace := st.trace ++ [Effect.preventDefault, Effect.readName s, Effect.disable,
          Effect.greet s] } s := by
  simp [handlerSync, hb, hn]

/-- A whole run on a page with a button and a name field is the continuation applied to the state
left by the synchronous part, the call just issued taken out of the calls in flight. -/
theorem runHandler_eq (e : Event) (st : State) (b : Button) (s : String) (c : Completion)
    (hb : st.page.button = some b) (hn : st.page.name = some s) :
    runHandler e st c = ({ e with defaultPrevented := true },
      handlerResume
        { page := { st.page with button := some { b with disabled := some "true" } }
          inflight := st.inflight
          trace := st.trace ++ [Effect.preventDefault, Effect.readName s, Effect.disable,
            Effect.greet s] } c) := by
  simp [runHandler, handlerSync_awaiting e st b s hb hn]

/-- The example page: an enabled button, the name field holding `name`, the display element
holding `shown`, no call in flight and an empty trace. -/
def examplePage (name shown : String) : State :=
  { page := { button := some { disabled := none }, name := some name, greeting := some shown }
    inflight := []
    trace := [] }

/-- The example page after a submission whose call was rejected. -/
def exampleAfterRejection : State :=
  { page :=
      { button := some { disabled := some "true" }
        name := some "Alice"
        greeting := some "old" }
    inflight := []
    trace := [Effect.preventDefault, Effect.readName "Alice", Effect.disable,
      Effect.greet "Alice"] }

/-- The example page after a submission whose call resolved with "Hello, Alice!". -/
def exampleAfterGreeting : State :=
  { page :=
      { button := some { disabled := none }
        name := some "Alice"
        greeting := some "Hello, Alice!" }
    inflight := []
    trace := [Effect.preventDefault, Effect.readName "Alice", Effect.disable,
      Effect.greet "Alice", Effect.enable, Effect.write "Hello, Alice!"] }

/-! ## One run of the listener -/

/-- C1: on a page with the form's button and the name field holding `s`, one run of the listener
(whatever the completion of the call, whatever the display element) issues exactly one `greet`
call and its argument is `s`: the synchronous part suspends at the `await` with the argument `s`
read before the call is awaited, and the effects of the whole run contain the single call
`greet s`. -/
theorem submit_calls_greet_once (e : Event) (st : State) (b : Button) (s : String)
    (c : Completion) (hb : st.page.button = some b) (hn : st.page.name = some s) :
    (∃ e1 st1, handlerSync e st = .awaiting e1 st1 s ∧ st1.inflight = st.inflight ++ [s]) ∧
    greetCalls ((runHandler e st c).2.state.trace.drop st.trace.length) = [s] := by
  refine ⟨⟨_, _, handlerSync_awaiting e st b s hb hn, rfl⟩, ?_⟩
  rw [runHandler_eq e st b s c hb hn]
  cases c with
  | rejected => simp [handlerResume, Settled.state, greetCalls]
  | resolved g =>
    cases hg : st.page.greeting <;> simp [handlerResume, Settled.state, greetCalls, hg]

/-- Witness of C1 with the empty string as name and a rejected call. -/
theorem submit_calls_greet_once_witness :
    (∃ e1 st1, handlerSync { defaultPrevented := false } (examplePage "" "old")
        = .awaiting e1 st1 "" ∧ st1.inflight = (examplePage "" "old").inflight ++ [""]) ∧
    greetCalls ((runHandler { defaultPrevented := false } (examplePage "" "old")
        .rejected).2.state.trace.drop (examplePage "" "old").trace.length) = [""] :=
  submit_calls_greet_once { defaultPrevented := false } (examplePage "" "old")
    { disabled := none } "" .rejected rfl rfl

/-- C2: on a page with button, name field and display element, when the call of a submission
resolves with `g` the listener returns, and in the state it leaves the trigger control is enabled
(no `disabled` attribute) and the text of the display element is exactly `g`, whatever it held
before. -/
theorem resolved_enables_and_shows (e : Event) (st : State) (b : Button) (s g0 g : String)
    (hb : st.page.button = some b) (hn : st.page.name = some s)
    (hg : st.page.greeting = some g0) :
    ∃ fin, (runHandler e st (.resolved g)).2 = .returned false fin ∧
      fin.page.button = some { b with disabled := none } ∧
      isEnabled fin.page = true ∧ isDisabled fin.page = false ∧
      fin.page.greeting = some g := by
  rw [runHandler_eq e st b s _ hb hn]
  simp [handlerResume, hg, isEnabled, isDisabled]

/-- Witness of C2: name "Alice", prior text "old", result "Hello, Alice!". -/
theorem resolved_enables_and_shows_witness :
    ∃ fin, (runHandler { defaultPrevented := false } (examplePage "Alice" "old")
        (.resolved "Hello, Alice!")).2 = .returned false fin ∧
      fin.page.button = some { ({ disabled := none } : Button) with disabled := none } ∧
      isEnabled fin.page = true ∧ isDisabled fin.page = false ∧
      fin.page.greeting = some "Hello, Alice!" :=
  resolved_enables_and_shows { defaultPrevented := false } (examplePage "Alice" "old")
    { disabled := none } "Alice" "old" "Hello, Alice!" rfl rfl rfl

/-- C3: on a page with button and name field, the synchronous part of every submission ends
suspended at the `await`, its effects are exactly suppress, read, disable, call in this order (so
the trigger is disabled before the call is issued and nothing re-enables it), and in the state it
leaves the trigger control is disabled; a completion of the call that is not a resolution leaves
it disabled and adds no effect. -/
theorem disabled_while_call_pending (e : Event) (st : State) (b : Button) (s : String)
    (hb : st.page.button = some b) (hn : st.page.name = some s) :
    ∃ e1 st1, handlerSync e st = .awaiting e1 st1 s ∧
      st1.trace = st.trace ++ [Effect.preventDefault, Effect.readName s, Effect.disable,
        Effect.greet s] ∧
      isDisabled st1.page = true ∧ isEnabled st1.page = false ∧
      Effect.enable ∉ st1.trace.drop st.trace.length ∧
      (handlerResume st1 .rejected).state = st1 := by
  refine ⟨_, _, handlerSync_awaiting e st b s hb hn, rfl, ?_, ?_, ?_, rfl⟩ <;>
    simp [isDisabled, isEnabled]

/-- Witness of C3 on the example page. -/
theorem disabled_while_call_pending_witness :
    ∃ e1 st1, handlerSync { defaultPrevented := false } (examplePage "Alice" "old")
        = .awaiting e1 st1 "Alice" ∧
      st1.trace = (examplePage "Alice" "old").trace ++ [Effect.preventDefault,
        Effect.readName "Alice", Effect.disable, Effect.greet "Alice"] ∧
      isDisabled st1.page = true ∧ isEnabled st1.page = false ∧
      Effect.enable ∉ st1.trace.drop (examplePage "Alice" "old").trace.length ∧
      (handlerResume st1 .rejected).state = st1 :=
  disabled_while_call_pending { defaultPrevented := false } (examplePage "Alice" "old")
    { disabled := none } "Alice" rfl rfl

/-- C4: on a page with button and name field, when the call of a submission rejects the listener
throws at the `await`: its effects stop with the call, the trigger control is still disabled and
the display element (present or not) is what it was before the submission. -/
theorem rejected_stays_disabled (e : Event) (st : State) (b : Button) (s : String)
    (hb : st.page.button = some b) (hn : st.page.name = some s) :
    ∃ fin, (runHandler e st .rejected).2 = .threw fin ∧
      fin.trace = st.trace ++ [Effect.preventDefault, Effect.readName s, Effect.disable,
        Effect.greet s] ∧
      isDisabled fin.page = true ∧ isEnabled fin.page = false ∧
      fin.page.greeting = st.page.greeting := by
  rw [runHandler_eq e st b s _ hb hn]
  simp [handlerResume, isEnabled, isDisabled]

/-- Witness of C4 on the example page. -/
theorem rejected_stays_disabled_witness :
    ∃ fin, (runHandler { defaultPrevented := false } (examplePage "Alice" "old") .rejected).2
        = .threw fin ∧
      fin.trace = (examplePage "Alice" "old").trace ++ [Effect.preventDefault,
        Effect.readName "Alice", Effect.disable, Effect.greet "Alice"] ∧
      isDisabled fin.page = true ∧ isEnabled fin.page = false ∧
      fin.page.greeting = (examplePage "Alice" "old").page.greeting :=
  rejected_stays_disabled { defaultPrevented := false } (examplePage "Alice" "old")
    { disabled := none } "Alice" rfl rfl

/-- C5: for every event and every state (button, name field or display element present or
missing), the synchronous part of the listener leaves the event with its default action
suppressed and its first effect is `preventDefault`; the same holds at the end of a whole run for
every completion of the call. -/
theorem default_always_prevented (e : Event) (st : State) :
    (handlerSync e st).event.defaultPrevented = true ∧
    (∃ rest, (handlerSync e st).state.trace = st.trace ++ Effect.preventDefault :: rest) ∧
    ∀ c, (runHandler e st c).1.defaultPrevented = true ∧
      ∃ rest, (runHandler e st c).2.state.trace = st.trace ++ Effect.preventDefault :: rest := by
  cases hn : st.page.name with
  | none =>
    refine ⟨by simp [handlerSync, hn, Suspension.event],
      ⟨[], by simp [handlerSync, hn, Suspension.state]⟩, fun c => ?_⟩
    exact ⟨by simp [runHandler, handlerSync, hn],
      ⟨[], by simp [runHandler, handlerSync, hn, Settled.state]⟩⟩
  | some s =>
    cases hb : st.page.button with
    | none =>
      refine ⟨by simp [handlerSync, hn, hb, Suspension.event],
        ⟨[Effect.readName s], by simp [handlerSync, hn, hb, Suspension.state]⟩, fun c => ?_⟩
      exact ⟨by simp [runHandler, handlerSync, hn, hb],
        ⟨[Effect.readName s], by simp [runHandler, handlerSync, hn, hb, Settled.state]⟩⟩
    | some b =>
      rw [handlerSync_awaiting e st b s hb hn]
      refine ⟨rfl, ⟨_, by simp [Suspension.state]; rfl⟩, fun c => ?_⟩
      rw [runHandler_eq e st b s c hb hn]
      refine ⟨rfl, ?_⟩
      cases c with
      | rejected => exact ⟨_, by simp [handlerResume, Settled.state]; rfl⟩
      | resolved g =>
        cases hg : st.page.greeting with
        | none => exact ⟨_, by simp [handlerResume, Settled.state, hg]; rfl⟩
        | some g0 => exact ⟨_, by simp [handlerResume, Settled.state, hg]; rfl⟩

/-- Two submissions one after the other: the first run completes with `g1`, the user then sets
the name field to `s2`, and the second run starts from the state the first one left and completes
with `g2`. -/
def twoSubmissions (e1 e2 : Event) (st : State) (s2 g1 g2 : String) : Settled :=
  let st1 := (runHandler e1 st (.resolved g1)).2.state
  (runHandler e2 { st1 with page := { st1.page with name := some s2 } } (.resolved g2)).2

/-- C6: on a page with button, name field and display element, after two sequential successful
submissions whose calls resolve with `g1` and then `g2` the second run returns with the display
text exactly `g2` (nothing of `g1` or of the earlier text remains) and the trigger enabled. -/
theorem sequential_shows_latest (e1 e2 : Event) (st : State) (b : Button)
    (s1 s2 g0 g1 g2 : String) (hb : st.page.button = some b) (hn : st.page.name = some s1)
    (hg : st.page.greeting = some g0) :
    ∃ fin, twoSubmissions e1 e2 st s2 g1 g2 = .returned false fin ∧
      fin.page.greeting = some g2 ∧ isEnabled fin.page = true := by
  unfold twoSubmissions
  rw [runHandler_eq e1 st b s1 _ hb hn]
  simp only [handlerResume, hg, Settled.state, Option.map]
  rw [runHandler_eq e2 _ { b with disabled := none } s2 _ rfl rfl]
  simp [handlerResume, isEnabled]

/-- Witness of C6: names "Alice" then "Bob". -/
theorem sequential_shows_latest_witness :
    ∃ fin, twoSubmissions { defaultPrevented := false } { defaultPrevented := false }
        (examplePage "Alice" "old") "Bob" "Hello, Alice!" "Hello, Bob!" = .returned false fin ∧
      fin.page.greeting = some "Hello, Bob!" ∧ isEnabled fin.page = true :=
  sequential_shows_latest { defaultPrevented := false } { defaultPrevented := false }
    (examplePage "Alice" "old") { disabled := none } "Alice" "Bob" "old" "Hello, Alice!"
    "Hello, Bob!" rfl rfl rfl

/-- C8: on a page with button, name field and display element, a run whose call resolves with `g`
returns, and its effects are exactly: suppress the default action, read the name, disable the
trigger, call `greet` with the name, re-enable the trigger, write `g` to the display element, in
this order and each once. -/
theorem successful_trace (e : Event) (st : State) (b : Button) (s g0 g : String)
    (hb : st.page.button = some b) (hn : st.page.name = some s)
    (hg : st.page.greeting = some g0) :
    ∃ fin, (runHandler e st (.resolved g)).2 = .returned false fin ∧
      fin.trace = st.trace ++ [Effect.preventDefault, Effect.readName s, Effect.disable,
        Effect.greet s, Effect.enable, Effect.write g] ∧
      (fin.trace.drop st.trace.length).Nodup := by
  rw [runHandler_eq e st b s _ hb hn]
  simp [handlerResume, hg]

/-- Witness of C8 with the empty name. -/
theorem successful_trace_witness :
    ∃ fin, (runHandler { defaultPrevented := false } (examplePage "" "old")
        (.resolved "Hello, !")).2 = .returned false fin ∧
      fin.trace = (examplePage "" "old").trace ++ [Effect.preventDefault, Effect.readName "",
        Effect.disable, Effect.greet "", Effect.enable, Effect.write "Hello, !"] ∧
      (fin.trace.drop (examplePage "" "old").trace.length).Nodup :=
  successful_trace { defaultPrevented := false } (examplePage "" "old") { disabled := none }
    "" "old" "Hello, !" rfl rfl rfl

/-! ## Overlapping submissions -/

/-- C9: from a state with button, name field, display element and no call in flight, two submit
events handled before either call completes leave both calls in flight, and the display ends up
with the greeting of the call that resolved last: when the first call (name `s1`, result `g1`)
resolves after the second (name `s2`, result `g2`) the display holds the stale `g1`; when it
resolves before, the display holds `g2`. -/
theorem last_resolution_wins (st : State) (b : Button) (s1 s2 g0 g1 g2 : String)
    (hb : st.page.button = some b) (hn : st.page.name = some s1)
    (hg : st.page.greeting = some g0) (hi : st.inflight = []) :
    (∃ mid, runActions step st [.submit, .typeName s2, .submit] = some mid ∧
      mid.inflight = [s1, s2]) ∧
    (∃ fin, runActions step st [.submit, .typeName s2, .submit,
        .complete 1 (.resolved g2), .complete 0 (.resolved g1)] = some fin ∧
      fin.page.greeting = some g1 ∧ fin.inflight = []) ∧
    (∃ fin, runActions step st [.submit, .typeName s2, .submit,
        .complete 0 (.resolved g1), .complete 0 (.resolved g2)] = some fin ∧
      fin.page.greeting = some g2 ∧ fin.inflight = []) := by
  obtain ⟨⟨button, name, greeting⟩, inflight, trace⟩ := st
  simp only at hb hn hg hi
  subst hb hn hg hi
  simp [runActions, step, handlerSync, handlerResume, Suspension.state, Settled.state]

/-- Witness of C9: "Alice" is submitted first and answered last. -/
theorem last_resolution_wins_witness :
    (∃ mid, runActions step (examplePage "Alice" "old") [.submit, .typeName "Bob", .submit]
        = some mid ∧ mid.inflight = ["Alice", "Bob"]) ∧
    (∃ fin, runActions step (examplePage "Alice" "old") [.submit, .typeName "Bob", .submit,
        .complete 1 (.resolved "Hello, Bob!"), .complete 0 (.resolved "Hello, Alice!")]
        = some fin ∧ fin.page.greeting = some "Hello, Alice!" ∧ fin.inflight = []) ∧
    (∃ fin, runActions step (examplePage "Alice" "old") [.submit, .typeName "Bob", .submit,
        .complete 0 (.resolved "Hello, Alice!"), .complete 0 (.resolved "Hello, Bob!")]
        = some fin ∧ fin.page.greeting = some "Hello, Bob!" ∧ fin.inflight = []) :=
  last_resolution_wins (examplePage "Alice" "old") { disabled := none } "Alice" "Bob" "old"
    "Hello, Alice!" "Hello, Bob!" rfl rfl rfl rfl

/-- C10: from a state with button, name field and no call in flight, after two submit events
handled before either call completes the first resolution (of either call) removes the `disabled`
attribute: the state reached has the trigger control enabled while one call is still in
flight. -/
theorem enabled_with_call_in_flight (st : State) (b : Button) (s g : String)
    (hb : st.page.button = some b) (hn : st.page.name = some s) (hi : st.inflight = []) :
    ∀ i, i < 2 → ∃ fin, runActions step st [.submit, .submit, .complete i (.resolved g)]
        = some fin ∧ isEnabled fin.page = true ∧ fin.inflight = [s] := by
  intro i hlt
  have h : i = 0 ∨ i = 1 := by omega
  obtain ⟨⟨button, name, greeting⟩, inflight, trace⟩ := st
  simp only at hb hn hi
  subst hb hn hi
  cases greeting <;> rcases h with rfl | rfl <;>
    simp [runActions, step, handlerSync, handlerResume, Suspension.state, Settled.state,
      isEnabled]

/-- Witness of C10: the older of the two calls resolves. -/
theorem enabled_with_call_in_flight_witness :
    ∃ fin, runActions step (examplePage "Alice" "old")
        [.submit, .submit, .complete 0 (.resolved "Hello, Alice!")] = some fin ∧
      isEnabled fin.page = true ∧ fin.inflight = ["Alice"] :=
  enabled_with_call_in_flight (examplePage "Alice" "old") { disabled := none } "Alice"
    "Hello, Alice!" rfl rfl rfl 0 (by decide)

/-! ## Submissions through the enabled trigger only -/

/-- Invariant of the guarded runs: the trigger is enabled with no call in flight, or disabled
with one call in flight, or (only when `rej` says a call has rejected) disabled with no call in
flight. -/
def GuardedInv (rej : Bool) (st : State) : Prop :=
  (isEnabled st.page = true ∧ st.inflight = []) ∨
  (isDisabled st.page = true ∧ st.inflight.length = 1) ∨
  (rej = true ∧ isDisabled st.page = true ∧ st.inflight = [])

/-- One guarded turn of the event loop keeps the invariant; the flag is raised by a rejection. -/
theorem guardedStep_inv (rej : Bool) (st st1 : State) (a : Action)
    (hinv : GuardedInv rej st) (hs : guardedStep st a = some st1) :
    GuardedInv (rej || a.isRejection) st1 := by
  obtain ⟨⟨button, name, greeting⟩, inflight, trace⟩ := st
  cases a with
  | submit =>
    cases button with
    | none => simp [guardedStep, isEnabled] at hs
    | some b =>
      obtain ⟨d⟩ := b
      cases d with
      | some v => simp [guardedStep, isEnabled] at hs
      | none =>
        have hi : inflight = [] := by
          rcases hinv with h | h | h
          · exact h.2
          · simp [isDisabled] at h
          · exact h.2.2
        subst hi
        cases name with
        | none =>
          simp [guardedStep, isEnabled, step, handlerSync, Suspension.state] at hs
          subst hs
          exact Or.inl ⟨by simp [isEnabled], rfl⟩
        | some s =>
          simp [guardedStep, isEnabled, step, handlerSync, Suspension.state] at hs
          subst hs
          exact Or.inr (Or.inl ⟨by simp [isDisabled], rfl⟩)
  | typeName s =>
    cases name with
    | none => simp [guardedStep, step] at hs
    | some s0 =>
      simp [guardedStep, step] at hs
      subst hs
      rcases hinv with h | h | h
      · exact Or.inl h
      · exact Or.inr (Or.inl h)
      · exact Or.inr (Or.inr ⟨by simp [h.1], h.2⟩)
  | complete i c =>
    simp only [guardedStep, step] at hs
    split at hs
    · rename_i hlt
      simp only [Option.some.injEq] at hs
      have hd : isDisabled { button := button, name := name, greeting := greeting } = true ∧
          inflight.length = 1 := by
        rcases hinv with h | h | h
        · have h2 : inflight = [] := h.2
          subst h2
          simp at hlt
        · exact h
        · have h2 : inflight = [] := h.2.2
          subst h2
          simp at hlt
      obtain ⟨hdis, hlen⟩ := hd
      have hi0 : i = 0 := by
        simp only [hlen] at hlt
        omega
      subst hi0
      obtain ⟨s, rfl⟩ := List.length_eq_one.mp hlen
      cases button with
      | none => simp [isDisabled] at hdis
      | some b =>
        cases c with
        | rejected =>
          simp [handlerResume, Settled.state] at hs
          subst hs
          exact Or.inr (Or.inr ⟨by simp [Action.isRejection], hdis, rfl⟩)
        | resolved g =>
          cases greeting <;>
          · simp [handlerResume, Settled.state] at hs
            subst hs
            exact Or.inl ⟨by simp [isEnabled], rfl⟩
    · simp at hs

/-- A guarded run keeps the invariant; the flag is raised when some action of the run is a
rejection. -/
theorem runActions_guarded_inv (acts : List Action) (rej : Bool) (st0 st : State)
    (hinv : GuardedInv rej st0) (hr : runActions guardedStep st0 acts = some st) :
    GuardedInv (rej || acts.any Action.isRejection) st := by
  induction acts generalizing rej st0 with
  | nil =>
    simp only [runActions, Option.some.injEq] at hr
    subst hr
    simpa using hinv
  | cons a as ih =>
    simp only [runActions] at hr
    cases hs : guardedStep st0 a with
    | none => simp [hs] at hr
    | some st1 =>
      simp only [hs] at hr
      have h1 := ih (rej || a.isRejection) st1 (guardedStep_inv rej st0 st1 a hinv hs) hr
      simpa [List.any_cons, Bool.or_assoc] using h1

/-- C7, the claim as stated fails: from the idle example page, a submission followed by the
rejection of its call reaches `exampleAfterRejection`, in which the trigger is disabled and no
call is in flight, so the number of calls in flight is not 1. -/
theorem guarded_invariant_fails_after_rejection :
    Idle (examplePage "Alice" "old") ∧
    runActions guardedStep (examplePage "Alice" "old") [.submit, .complete 0 .rejected]
      = some exampleAfterRejection ∧
    isDisabled exampleAfterRejection.page = true ∧
    exampleAfterRejection.inflight.length = 0 ∧
    ¬ (exampleAfterRejection.inflight.length
      = if isDisabled exampleAfterRejection.page = true then 1 else 0) := by
  refine ⟨⟨rfl, rfl⟩, rfl, rfl, rfl, ?_⟩
  simp [exampleAfterRejection, isDisabled]

/-- C7 as amended: in every state reached from an idle state by submissions made while the
trigger control is enabled, edits of the name field and completions of a call in flight
(resolution or rejection), at most one call is in flight, a call in flight implies that the
trigger is disabled, and an enabled trigger implies that no call is in flight; when no completion
of the run is a rejection, the number of calls in flight is 1 if the trigger is disabled and 0
otherwise. -/
theorem guarded_invariant (st0 st : State) (acts : List Action) (h0 : Idle st0)
    (hr : runActions guardedStep st0 acts = some st) :
    st.inflight.length ≤ 1 ∧
    (st.inflight.length = 1 → isDisabled st.page = true) ∧
    (isEnabled st.page = true → st.inflight.length = 0) ∧
    (acts.any Action.isRejection = false →
      st.inflight.length = if isDisabled st.page = true then 1 else 0) := by
  have hinv := runActions_guarded_inv acts false st0 st (Or.inl h0) hr
  have hex : ∀ p : Page, isEnabled p = true → isDisabled p = false := by
    intro p hp
    unfold isEnabled at hp
    unfold isDisabled
    cases hbt : p.button with
    | none => rfl
    | some b =>
      simp only [hbt] at hp
      cases hd : b.disabled <;> simp_all
  rcases hinv with h | h | h
  · have hd := hex _ h.1
    simp [h.2, hd]
  · have he : isEnabled st.page = false := by
      cases hen : isEnabled st.page with
      | false => rfl
      | true => simp [hex _ hen] at h
    simp [h.1, h.2, he]
  · have he : isEnabled st.page = false := by
      cases hen : isEnabled st.page with
      | false => rfl
      | true => simp [hex _ hen] at h
    have hrej : acts.any Action.isRejection = true := by simpa using h.1
    simp [h.2.1, h.2.2, he, hrej]

/-- Witness of C7 as amended: a submission on the idle example page and the resolution of its
call, which reach `exampleAfterGreeting`. -/
theorem guarded_invariant_witness :
    Idle (examplePage "Alice" "old") ∧
    runActions guardedStep (examplePage "Alice" "old")
      [.submit, .complete 0 (.resolved "Hello, Alice!")] = some exampleAfterGreeting ∧
    exampleAfterGreeting.inflight.length ≤ 1 ∧
    (exampleAfterGreeting.inflight.length = 1 → isDisabled exampleAfterGreeting.page = true) ∧
    (isEnabled exampleAfterGreeting.page = true → exampleAfterGreeting.inflight.length = 0) ∧
    ([Action.submit, .complete 0 (.resolved "Hello, Alice!")].any Action.isRejection = false →
      exampleAfterGreeting.inflight.length
        = if isDisabled exampleAfterGreeting.page = true then 1 else 0) :=
  ⟨⟨rfl, rfl⟩, rfl, guarded_invariant (examplePage "Alice" "old") exampleAfterGreeting
    [.submit, .complete 0 (.resolved "Hello, Alice!")] ⟨rfl, rfl⟩ rfl⟩

end EnergyTrading
